import Mathlib

/-!
Verification of the Naphome firmware dashboard's ingestion/classification core
(`scripts/web_dashboard.py`) and of the chunked-BLE test client
(`scripts/ble_client_test.py`), as a shallow embedding in Lean 4.

Conventions of the embedding:
* Python `str` values are Lean `String`s (a Python string is a sequence of
  unicode code points, matching Lean's `List Char` view).
* Raw serial bytes are `List Nat` with each entry < 256.
* Python dict mutation is modelled by record update; where object identity
  (aliasing) is what a claim is about, a small explicit heap is used.
* A Python exception escaping a handler is modelled with an explicit
  `Option PyErr` component: the state mutated so far is kept, matching the
  semantics of an exception thrown mid-function.
-/

/-! ## String utilities (Python `str` operations on ASCII-range text) -/

/-- Python `str.lower()` for the ASCII range (the log patterns are ASCII). -/
def strLower (s : String) : String := ⟨s.data.map Char.toLower⟩

/-- Python whitespace for `str.strip()` and the regex class `\s`
(space, tab, newline, carriage return, form feed, vertical tab). -/
def isPySpace (c : Char) : Bool :=
  c = ' ' || c = '\t' || c = '\n' || c = '\r' || c = '\x0c' || c = '\x0b'

/-- Python `str.strip()`. -/
def stripL (l : List Char) : List Char :=
  ((l.dropWhile isPySpace).reverse.dropWhile isPySpace).reverse

/-- Python `str.strip()` on `String`. -/
def stripS (s : String) : String := ⟨stripL s.data⟩

/-- Python's `pat in text` substring test, on char lists (`pat` first). -/
def containsL (pat : List Char) : List Char → Bool
  | [] => pat.isEmpty
  | c :: rest => pat.isPrefixOf (c :: rest) || containsL pat rest

/-- Python's `pat in text` substring test on strings: `containsS text pat`. -/
def containsS (text pat : String) : Bool := containsL pat.data text.data

/-- The suffix just after the first occurrence of `pat`, if any
(what remains after `re.search` has consumed a literal). -/
def afterL (pat : List Char) : List Char → Option (List Char)
  | [] => if pat.isEmpty then some [] else none
  | c :: rest =>
    if pat.isPrefixOf (c :: rest) then some ((c :: rest).drop pat.length)
    else afterL pat rest

/-- `re.search(a + '.*' + b, text)` succeeds iff some occurrence of `a` is
followed (anywhere later) by `b`; equivalently `b` occurs after the first `a`. -/
def matchThenL (a b : String) (l : List Char) : Bool :=
  match afterL a.data l with
  | none => false
  | some rest => containsL b.data rest

/-- The group of `re.search(lit + r'\s*([^\s]+)', line)`: after the first
occurrence of the literal, skip whitespace and take the nonempty run of
non-whitespace characters.  (Only the first occurrence of the literal is
tried; the classifier's lines carry each literal at most once.) -/
def tokenAfter (lit : String) (l : List Char) : Option (List Char) :=
  match afterL lit.data l with
  | none => none
  | some rest =>
    let t := (rest.dropWhile isPySpace).takeWhile (fun c => !isPySpace c)
    if t.isEmpty then none else some t

/-- The group of `re.search(lit + r'\s*(.+)', line)`: succeeds iff anything at
all follows the literal (`.+` can backtrack into the whitespace). -/
def restAfter (lit : String) (l : List Char) : Option (List Char) :=
  match afterL lit.data l with
  | none => none
  | some rest => if rest.isEmpty then none else some rest

/-- The group of `re.search(lit + r'\s*([a-f0-9]+)', line, re.IGNORECASE)`
evaluated on the lowered line: hex-digit run after the literal. -/
def hexTokenAfter (lit : String) (l : List Char) : Option (List Char) :=
  match afterL lit.data l with
  | none => none
  | some rest =>
    let t := (rest.dropWhile isPySpace).takeWhile
      (fun c => ('a' ≤ c && c ≤ 'f') || ('0' ≤ c && c ≤ '9'))
    if t.isEmpty then none else some t

def isDigitCh (c : Char) : Bool := '0' ≤ c && c ≤ '9'

/-- One `\d+\.\d+\.\d+\.\d+` at the very front of `l` (an IPv4 dotted quad),
returning the matched characters. -/
def quadHere (l : List Char) : Option (List Char) :=
  let d1 := l.takeWhile isDigitCh
  let r1 := l.dropWhile isDigitCh
  match d1, r1 with
  | [], _ => none
  | _, '.' :: r1' =>
    let d2 := r1'.takeWhile isDigitCh
    let r2 := r1'.dropWhile isDigitCh
    match d2, r2 with
    | [], _ => none
    | _, '.' :: r2' =>
      let d3 := r2'.takeWhile isDigitCh
      let r3 := r2'.dropWhile isDigitCh
      match d3, r3 with
      | [], _ => none
      | _, '.' :: r3' =>
        let d4 := r3'.takeWhile isDigitCh
        if d4.isEmpty then none
        else some (d1 ++ '.' :: d2 ++ '.' :: d3 ++ '.' :: d4)
      | _, _ => none
    | _, _ => none
  | _, _ => none

/-- `re.search(r'ip:\s*(\d+\.\d+\.\d+\.\d+)', line_lower)`: scan every
position for the literal `ip:` followed by whitespace and a dotted quad. -/
def findIpQuad : List Char → Option (List Char)
  | [] => none
  | c :: rest =>
    if "ip:".data.isPrefixOf (c :: rest) then
      match quadHere (((c :: rest).drop 3).dropWhile isPySpace) with
      | some q => some q
      | none => findIpQuad rest
    else findIpQuad rest

def isHexCh (c : Char) : Bool :=
  ('0' ≤ c && c ≤ '9') || ('a' ≤ c && c ≤ 'f') || ('A' ≤ c && c ≤ 'F')

def hexVal (c : Char) : Nat :=
  if '0' ≤ c && c ≤ '9' then c.toNat - '0'.toNat
  else if 'a' ≤ c && c ≤ 'f' then c.toNat - 'a'.toNat + 10
  else if 'A' ≤ c && c ≤ 'F' then c.toNat - 'A'.toNat + 10
  else 0

/-- `re.search(r'0x([0-9a-fA-F]{2})', line)`: first `0x` followed by at least
two hex digits; the group is the first two of them, as a number. -/
def findHexByte : List Char → Option Nat
  | [] => none
  | '0' :: 'x' :: h1 :: h2 :: rest =>
    if isHexCh h1 && isHexCh h2 then some (16 * hexVal h1 + hexVal h2)
    else findHexByte ('x' :: h1 :: h2 :: rest)
  | _ :: rest => findHexByte rest

/-! ## Permissive UTF-8 decoding

`serial_conn.readline()` yields raw bytes; `line.decode('utf-8',
errors='ignore')` (web_dashboard.py line 1113) removes every invalid
sequence (CPython skips the maximal subpart of an ill-formed sequence and
resumes).  `decodeUtf8Ignore` is that decoder.  `decodeUtf8ReplaceSpec` is
NOT from the source: it follows the spec's words ("invalid sequences
replaced", "decoded permissively with the invalid sequences replaced by
substitution characters") for comparison in claim C9. -/

/-- A UTF-8 continuation byte. -/
def isCont (b : Nat) : Bool := 0x80 ≤ b && b ≤ 0xBF

/-- Constraint on the first continuation byte of a three-byte sequence. -/
def cont1ok3 (b c : Nat) : Bool :=
  if b = 0xE0 then 0xA0 ≤ c && c ≤ 0xBF
  else if b = 0xED then 0x80 ≤ c && c ≤ 0x9F
  else isCont c

/-- Constraint on the first continuation byte of a four-byte sequence. -/
def cont1ok4 (b c : Nat) : Bool :=
  if b = 0xF0 then 0x90 ≤ c && c ≤ 0xBF
  else if b = 0xF4 then 0x80 ≤ c && c ≤ 0x8F
  else isCont c

/-- `bytes.decode('utf-8', errors='ignore')`, fuel-indexed so the
recursion is structural (every step consumes at least one byte, so fuel
equal to the list length never runs out): ill-formed input is skipped
(maximal-subpart policy: an invalid lead byte is skipped alone; a valid
prefix of a longer sequence is skipped up to the offending byte, which is
then reconsidered as a new lead). -/
def decodeUtf8IgnoreF : Nat → List Nat → List Char
  | 0, _ => []
  | _ + 1, [] => []
  | fuel + 1, b :: r =>
    if b ≤ 0x7F then Char.ofNat b :: decodeUtf8IgnoreF fuel r
    else if 0xC2 ≤ b && b ≤ 0xDF then
      match r with
      | [] => []
      | c1 :: r1 =>
        if isCont c1 then
          Char.ofNat ((b - 0xC0) * 0x40 + (c1 - 0x80)) :: decodeUtf8IgnoreF fuel r1
        else decodeUtf8IgnoreF fuel (c1 :: r1)
    else if 0xE0 ≤ b && b ≤ 0xEF then
      match r with
      | [] => []
      | c1 :: r1 =>
        if cont1ok3 b c1 then
          match r1 with
          | [] => []
          | c2 :: r2 =>
            if isCont c2 then
              Char.ofNat ((b - 0xE0) * 0x1000 + (c1 - 0x80) * 0x40 + (c2 - 0x80))
                :: decodeUtf8IgnoreF fuel r2
            else decodeUtf8IgnoreF fuel (c2 :: r2)
        else decodeUtf8IgnoreF fuel (c1 :: r1)
    else if 0xF0 ≤ b && b ≤ 0xF4 then
      match r with
      | [] => []
      | c1 :: r1 =>
        if cont1ok4 b c1 then
          match r1 with
          | [] => []
          | c2 :: r2 =>
            if isCont c2 then
              match r2 with
              | [] => []
              | c3 :: r3 =>
                if isCont c3 then
                  Char.ofNat ((b - 0xF0) * 0x40000 + (c1 - 0x80) * 0x1000
                      + (c2 - 0x80) * 0x40 + (c3 - 0x80)) :: decodeUtf8IgnoreF fuel r3
                else decodeUtf8IgnoreF fuel (c3 :: r3)
            else decodeUtf8IgnoreF fuel (c2 :: r2)
        else decodeUtf8IgnoreF fuel (c1 :: r1)
    else decodeUtf8IgnoreF fuel r

/-- The decoder at its adequate fuel. -/
def decodeUtf8Ignore (l : List Nat) : List Char := decodeUtf8IgnoreF l.length l

/-- Modelled from the spec, not the source: a decoder in which every
ill-formed sequence is "replaced by substitution characters" (U+FFFD), as the
spec's ingestion contract words it.  Used only to compare the source's
`errors='ignore'` behaviour against the spec's claim (C9). -/
def decodeUtf8ReplaceSpecF : Nat → List Nat → List Char
  | 0, _ => []
  | _ + 1, [] => []
  | fuel + 1, b :: r =>
    if b ≤ 0x7F then Char.ofNat b :: decodeUtf8ReplaceSpecF fuel r
    else if 0xC2 ≤ b && b ≤ 0xDF then
      match r with
      | [] => ['\uFFFD']
      | c1 :: r1 =>
        if isCont c1 then
          Char.ofNat ((b - 0xC0) * 0x40 + (c1 - 0x80)) :: decodeUtf8ReplaceSpecF fuel r1
        else '\uFFFD' :: decodeUtf8ReplaceSpecF fuel (c1 :: r1)
    else if 0xE0 ≤ b && b ≤ 0xEF then
      match r with
      | [] => ['\uFFFD']
      | c1 :: r1 =>
        if cont1ok3 b c1 then
          match r1 with
          | [] => ['\uFFFD']
          | c2 :: r2 =>
            if isCont c2 then
              Char.ofNat ((b - 0xE0) * 0x1000 + (c1 - 0x80) * 0x40 + (c2 - 0x80))
                :: decodeUtf8ReplaceSpecF fuel r2
            else '\uFFFD' :: decodeUtf8ReplaceSpecF fuel (c2 :: r2)
        else '\uFFFD' :: decodeUtf8ReplaceSpecF fuel (c1 :: r1)
    else if 0xF0 ≤ b && b ≤ 0xF4 then
      match r with
      | [] => ['\uFFFD']
      | c1 :: r1 =>
        if cont1ok4 b c1 then
          match r1 with
          | [] => ['\uFFFD']
          | c2 :: r2 =>
            if isCont c2 then
              match r2 with
              | [] => ['\uFFFD']
              | c3 :: r3 =>
                if isCont c3 then
                  Char.ofNat ((b - 0xF0) * 0x40000 + (c1 - 0x80) * 0x1000
                      + (c2 - 0x80) * 0x40 + (c3 - 0x80)) :: decodeUtf8ReplaceSpecF fuel r3
                else '\uFFFD' :: decodeUtf8ReplaceSpecF fuel (c3 :: r3)
            else '\uFFFD' :: decodeUtf8ReplaceSpecF fuel (c2 :: r2)
        else '\uFFFD' :: decodeUtf8ReplaceSpecF fuel (c1 :: r1)
    else '\uFFFD' :: decodeUtf8ReplaceSpecF fuel r

/-- The spec-modelled replacing decoder at its adequate fuel. -/
def decodeUtf8ReplaceSpec (l : List Nat) : List Char := decodeUtf8ReplaceSpecF l.length l

/-! ## The Status Store (web_dashboard.py, module-level `status` dict)

Only the fields the claims touch are modelled.  Branches of
`parse_log_line` that mutate solely unmodelled fields and can raise no
exception (the Spotify, wake-reset-thread detail, mute, audio, sensor
availability, Gemini and LED blocks, the reboot-time and I2C-conflict
bookkeeping) are omitted; see the comments inside `parseLogLine`. -/

/-- `status['version']` (source lines 95-104). -/
structure VersionInfo where
  firmware_version : Option String := none
  git_commit : Option String := none
  git_date : Option String := none
  build_time : Option String := none
  esp_idf_version : Option String := none
  vstatus : String := "Unknown"
deriving Repr, DecidableEq

/-- `status['stats']` (source lines 120-125). -/
structure StatsInfo where
  wake_events : Nat := 0
  wifi_connects : Nat := 0
  errors : Nat := 0
  gemini_errors : Nat := 0
deriving Repr, DecidableEq

/-- One bus of `status['i2c_scan']` (devices and scan status; the pin and
scan-time metadata fields are not read by any claim). -/
structure BusScan where
  devices : List Nat := []
  bstatus : String := "Not scanned"
deriving Repr, DecidableEq

inductive BusId | sensor | audio
deriving Repr, DecidableEq

/-- The modelled slice of the module-level `status` dict, plus the
module global `current_scanning_bus` and the persisted error file.
`disk_errors` is the `errors` list of `error_log.json` as last written by
`save_error_log()` (messages only; the wall-clock time strings attached to
each record are not read by any claim). -/
structure DashStatus where
  wifi : String := "Unknown"
  wifi_ip : Option String := none
  aws : String := "Unknown"
  aws_device_id : Option String := none
  version : VersionInfo := {}
  stats : StatsInfo := {}
  error_log : List String := []
  disk_errors : List String := []
  sensor_bus : BusScan := {}
  audio_bus : BusScan := {}
  scanning_bus : Option BusId := none
deriving Repr, DecidableEq

def initStatus : DashStatus := {}

/-- A Python exception escaping `parse_log_line`. -/
inductive PyErr
  | keyError (k : String)
  | nameError (n : String)
deriving Repr, DecidableEq

/-- Stand-in for CPython's string hash: the claims depend only on equal
strings having equal hashes, which any function gives; collisions between
the distinct strings appearing in a theorem are ruled out by hypothesis,
as the source's dedup genuinely conflates colliding messages. -/
def pyHash (s : String) : Nat :=
  s.data.foldl (fun h c => h * 31 + c.toNat) 7

/-! ### The classifier's blocks, in source order -/

/-- Source lines 246-274: the `status['firmware']` block.  The module-level
`status` dict has no `'firmware'` key (lines 45-157 define `'version'`
instead), so every branch whose regex matches raises `KeyError('firmware')`
on its first assignment, before mutating anything. -/
def firmwareBlock (l : List Char) : Option PyErr :=
  if containsL "firmware version:".data l then
    match tokenAfter "firmware version:" l with
    | some _ => some (.keyError "firmware")
    | none => none
  else if containsL "git commit:".data l then
    match hexTokenAfter "git commit:" l with
    | some _ => some (.keyError "firmware")
    | none => none
  else if containsL "commit date:".data l then
    match restAfter "commit date:" l with
    | some _ => some (.keyError "firmware")
    | none => none
  else if containsL "build timestamp:".data l then
    match restAfter "build timestamp:" l with
    | some _ => some (.keyError "firmware")
    | none => none
  else if containsL "esp-idf version:".data l then
    match restAfter "esp-idf version:" l with
    | some _ => some (.keyError "firmware")
    | none => none
  else none

/-- Source lines 277-321: the `status['version']` block (four independent
`if`s; group values are `[^\n]+` runs, stripped).  The latest-build
comparison inside the `build time:` branch calls `get_latest_build_time()`
(a filesystem probe) inside `try/except: pass`; it mutates only the
`is_up_to_date`/`latest_build_time` presentation fields, which no claim
reads, and is omitted. -/
def versionCalc (v : VersionInfo) (l : List Char) : VersionInfo :=
  let v :=
    if containsL "firmware version:".data l || containsL "firmware version".data l then
      match restAfter "firmware version:" l with
      | some rest =>
        let t := stripL rest
        if t.isEmpty then v
        else { v with firmware_version := some ⟨t⟩, vstatus := "Detected" }
      | none => v
    else v
  let v :=
    if containsL "git commit:".data l then
      match restAfter "git commit:" l with
      | some rest =>
        let t := stripL rest
        if t.isEmpty then v else { v with git_commit := some ⟨t⟩ }
      | none => v
    else v
  let v :=
    if containsL "git date:".data l then
      match restAfter "git date:" l with
      | some rest =>
        let t := stripL rest
        if t.isEmpty then v else { v with git_date := some ⟨t⟩ }
      | none => v
    else v
  let v :=
    if containsL "build time:".data l then
      match restAfter "build time:" l with
      | some rest =>
        let t := stripL rest
        if t.isEmpty then v else { v with build_time := some ⟨t⟩ }
      | none => v
    else v
  if containsL "esp-idf version:".data l then
    match restAfter "esp-idf version:" l with
    | some rest =>
      let t := stripL rest
      if t.isEmpty then v else { v with esp_idf_version := some ⟨t⟩ }
    | none => v
  else v

/-- The block writes only `status['version']` fields. -/
def versionBlock (st : DashStatus) (l : List Char) : DashStatus :=
  { st with version := versionCalc st.version l }

/-- Source lines 325-340: the Wi-Fi block.  Substring tests exactly as
written ('connected' is found inside 'disconnected' too, so a disconnect
line takes the first branch — faithful to the source). -/
def wifiBlock (st : DashStatus) (l : List Char) : DashStatus :=
  if containsL "wifi".data l || containsL "wi-fi".data l then
    if containsL "connected".data l then
      if !containsL "failed".data l && !containsL "fail".data l then
        { st with wifi := "Connected",
                  stats := { st.stats with wifi_connects := st.stats.wifi_connects + 1 } }
      else st
    else if containsL "disconnect".data l || containsL "disconnected".data l then
      { st with wifi := "Disconnected" }
    else if containsL "connect failed".data l || containsL "connect fail".data l then
      { st with wifi := "Failed" }
    else if containsL "connecting to".data l && containsL "ssid".data l then
      { st with wifi := "Connecting" }
    else st
  else st

/-- Source lines 344-353: the IP-address block. -/
def ipBlock (st : DashStatus) (l : List Char) : DashStatus :=
  if containsL "ip:".data l then
    match findIpQuad l with
    | some q =>
      { st with wifi := "Connected", wifi_ip := some ⟨q⟩,
                stats := { st.stats with wifi_connects := st.stats.wifi_connects + 1 } }
    | none => st
  else st

/-- The group of `re.search(r'connected to aws iot as\s+([^\s\)]+)',
line_lower)`: at least one whitespace character, then a nonempty run
outside whitespace and `)`. -/
def awsDeviceToken (l : List Char) : Option (List Char) :=
  match afterL "connected to aws iot as".data l with
  | none => none
  | some rest =>
    match rest with
    | [] => none
    | c :: _ =>
      if isPySpace c then
        let t := (rest.dropWhile isPySpace).takeWhile
          (fun ch => !isPySpace ch && ch ≠ ')')
        if t.isEmpty then none else some t
      else none

/-- Source lines 503-542: the AWS IoT block, acting on `status['aws']` and
`status['aws_device_id']`.  The `telemetry publish` branch and the two regex
fallbacks enter `with status_lock:` — but no `status_lock` is defined
anywhere in the module, so they raise `NameError('status_lock')` before
mutating anything. -/
def awsCalc (aws : String) (dev : Option String) (l : List Char) :
    String × Option String × Option PyErr :=
  if containsL "aws".data l || containsL "mqtt".data l || containsL "somnus".data l then
    if containsL "connected to aws iot as".data l then
      match awsDeviceToken l with
      | some t => ("Connected", some ⟨t⟩, none)
      | none => ("Connected", dev, none)
    else if containsL "aws iot bridge initialized".data l then
      ("Initialized", dev, none)
    else if containsL "somnus mqtt service started".data l then
      ("Connecting", dev, none)
    else if containsL "mqtt service started".data l && containsL "aws".data l then
      ("Connecting", dev, none)
    else if containsL "disconnected".data l &&
        (containsL "mqtt".data l || containsL "aws".data l) then
      ("Disconnected", dev, none)
    else if containsL "failed".data l &&
        (containsL "mqtt".data l || containsL "aws".data l || containsL "somnus".data l) then
      if containsL "init failed".data l then ("Init Failed", dev, none)
      else if containsL "start failed".data l then ("Start Failed", dev, none)
      else ("Failed", dev, none)
    else if containsL "telemetry publish".data l then
      (aws, dev, some (.nameError "status_lock"))
    else if matchThenL "aws" "connected" l || matchThenL "mqtt" "connected" l ||
        matchThenL "iot" "connected" l then
      (aws, dev, some (.nameError "status_lock"))
    else if matchThenL "aws" "failed" l || matchThenL "mqtt" "failed" l ||
        matchThenL "ssl" "failed" l || matchThenL "mbedtls" "failed" l then
      (aws, dev, some (.nameError "status_lock"))
    else if containsL "telemetry publish failed".data l then
      (aws, dev, some (.nameError "status_lock"))
    else (aws, dev, none)
  else (aws, dev, none)

/-- The block writes only the two AWS fields (or raises). -/
def awsBlock (st : DashStatus) (l : List Char) : DashStatus × Option PyErr :=
  match awsCalc st.aws st.aws_device_id l with
  | (a, d, e) => ({ st with aws := a, aws_device_id := d }, e)

/-- Source lines 545-553: the wake-word block's stats side effect.  The
`wake_word` flag, its wall-clock timestamp and the 2-second reset thread
mutate only unmodelled fields and raise nothing. -/
def wakeBlock (st : DashStatus) (l : List Char) : DashStatus :=
  if containsL "wake".data l &&
      (containsL "detected".data l || containsL "energy".data l ||
        containsL "simulated".data l) then
    { st with stats := { st.stats with wake_events := st.stats.wake_events + 1 } }
  else st

/-- Source lines 822-835: the critical-error keyword list. -/
def errorKeywords : List String :=
  ["guru meditation error", "panic", "exception was unhandled",
   "integerdividebyzero", "assert failed", "abort()", "crash", "fatal error",
   "watchdog reset", "brownout", "stack overflow", "heap corruption"]

def isCriticalLine (l : List Char) : Bool :=
  errorKeywords.any (fun k => containsL k.data l)

/-- Source lines 837-855: record a critical error.  Dedup is by CPython
`hash` of the stripped message against every record already in
`status['error_log']` (which `load_error_log()` seeded from disk at
startup); a novel message is appended, the list is capped to its last 50
records, and `save_error_log()` rewrites the persisted file synchronously
before `stats['errors']` is bumped.  Duplicate messages change nothing. -/
def criticalBlock (st : DashStatus) (line : String) (l : List Char) : DashStatus :=
  if isCriticalLine l then
    let msg := stripS line
    if st.error_log.any (fun e => pyHash (stripS e) = pyHash msg) then st
    else
      let log1 := st.error_log ++ [msg]
      let log2 := if log1.length > 50 then log1.drop (log1.length - 50) else log1
      { st with error_log := log2, disk_errors := log2,
                stats := { st.stats with errors := st.stats.errors + 1 } }
  else st

/-- Source lines 883-894: generic error counting with the exclusion list. -/
def errorExcludes : List String :=
  ["stack overflow", "certificate discovery", "using embedded",
   "spiffs may not be mounted", "falling back to embedded",
   "certificate directory not found"]

def errorsStatBlock (st : DashStatus) (l : List Char) : DashStatus :=
  if (containsL "error".data l || containsL "failed".data l) &&
      !errorExcludes.any (fun p => containsL p.data l) then
    { st with stats := { st.stats with errors := st.stats.errors + 1 } }
  else st

def getBus (st : DashStatus) : BusId → BusScan
  | .sensor => st.sensor_bus
  | .audio => st.audio_bus

def setBus (st : DashStatus) (b : BusId) (v : BusScan) : DashStatus :=
  match b with
  | .sensor => { st with sensor_bus := v }
  | .audio => { st with audio_bus := v }

/-- Source lines 898-912: a `Scanning <bus>` line resets the bus's device
list and records which bus is mid-scan (the `sda=`/`scl=` pin extraction
mutates only unmodelled pin fields). -/
def i2cScanningBlock (st : DashStatus) (l : List Char) : DashStatus :=
  if containsL "scanning".data l &&
      (containsL "sensor bus".data l || containsL "audio bus".data l) then
    let b : BusId := if containsL "sensor bus".data l then .sensor else .audio
    let st := setBus st b { getBus st b with bstatus := "Scanning", devices := [] }
    { st with scanning_bus := some b }
  else st

/-- Source lines 931-933: `if addr not in devices: devices.append(addr);
devices.sort()`.  Python `list.sort()` sorts ascending; on `Nat` lists the
sorted permutation is unique, so insertion sort models it exactly. -/
def i2cAddDevice (devs : List Nat) (addr : Nat) : List Nat :=
  if addr ∈ devs then devs else List.insertionSort (· ≤ ·) (devs ++ [addr])

/-- Source lines 915-934: the found-device block, with the source's bus
resolution order (explicit bus name in the line, else whichever bus is
`Scanning`, else `current_scanning_bus or 'sensor_bus'`). -/
def i2cFoundBlock (st : DashStatus) (line : String) (l : List Char) : DashStatus :=
  if containsL "found device at address".data l || containsL "device at address".data l then
    match findHexByte line.data with
    | some addr =>
      let b : BusId :=
        if containsL "audio bus".data l then .audio
        else if containsL "sensor bus".data l then .sensor
        else if st.audio_bus.bstatus = "Scanning" then .audio
        else if st.sensor_bus.bstatus = "Scanning" then .sensor
        else st.scanning_bus.getD .sensor
      setBus st b { getBus st b with devices := i2cAddDevice (getBus st b).devices addr }
    | none => st
  else st

/-- Source lines 937-947: the `Total: N device(s) found` block (the
count-mismatch warning is print-only). -/
def i2cTotalBlock (st : DashStatus) (l : List Char) : DashStatus :=
  if containsL "total:".data l && containsL "device".data l &&
      (containsL "found on".data l || containsL "sensor bus".data l ||
        containsL "audio bus".data l) then
    let b : BusId := if containsL "sensor bus".data l then .sensor else .audio
    setBus st b { getBus st b with bstatus := "Complete" }
  else st

/-- Source lines 950-956: the `End scan of <bus>` block (the bus is the
sensor bus iff the line names it, else the audio bus). -/
def i2cEndBlock (st : DashStatus) (l : List Char) : DashStatus :=
  if containsL "end scan of".data l then
    if containsL "sensor bus".data l then
      let st :=
        if st.sensor_bus.bstatus = "Scanning" then
          { st with sensor_bus := { st.sensor_bus with bstatus := "Complete" } }
        else st
      if st.scanning_bus = some BusId.sensor then { st with scanning_bus := none }
      else st
    else
      let st :=
        if st.audio_bus.bstatus = "Scanning" then
          { st with audio_bus := { st.audio_bus with bstatus := "Complete" } }
        else st
      if st.scanning_bus = some BusId.audio then { st with scanning_bus := none }
      else st
  else st

/-- Source lines 959-962: bus-creation failure. -/
def i2cFailBlock (st : DashStatus) (l : List Char) : DashStatus :=
  if containsL "failed to create scan bus".data l ||
      containsL "failed to initialize i2c bus".data l then
    let b : BusId :=
      if containsL "sensor bus".data l || containsL "i2c_num_0".data l then .sensor
      else .audio
    setBus st b { getBus st b with bstatus := "Failed" }
  else st

/-- `parse_log_line(line)` (source lines 238-1011) restricted to the
modelled state.  The omitted blocks each mutate only unmodelled fields and
raise nothing: Spotify (356-500), mute (556-557), audio (560-564), the
sensor numeric block (567-613, every per-field parse sits inside its own
`try/except: pass`, and its regexes search for uppercase literals such as
`T=` inside the lowercased line, so they never match), sensor availability
(616-637), Gemini (640-819), reboot detection (857-880, wall clock only),
I2C conflict bookkeeping (965-980) and LEDs (983-1011).  The pair's second
component is the exception escaping the call, with the first component the
state as mutated up to that point. -/
def parseLogLine (st : DashStatus) (line : String) : DashStatus × Option PyErr :=
  if stripS line = "" then (st, none)
  else
    let l := (strLower line).data
    match firmwareBlock l with
    | some e => (st, some e)
    | none =>
      let st := versionBlock st l
      let st := wifiBlock st l
      let st := ipBlock st l
      match awsBlock st l with
      | (st, some e) => (st, some e)
      | (st, none) =>
        let st := wakeBlock st l
        let st := criticalBlock st line l
        let st := errorsStatBlock st l
        let st := i2cScanningBlock st l
        let st := i2cFoundBlock st line l
        let st := i2cTotalBlock st l
        let st := i2cEndBlock st l
        let st := i2cFailBlock st l
        (st, none)

/-! ## The ingestion loop's per-line processing (serial_reader, lines 1106-1130) -/

/-- The dict of character counts over `text[:200]` has, as its max value,
the largest repetition count of any single character in that prefix. -/
def maxCharCount (l : List Char) : Nat :=
  (l.map (fun c => l.count c)).foldr Nat.max 0

/-- Source lines 1115-1122: the corruption heuristic.  Counts are taken
over the first 200 characters only; the comparison
`max(char_counts.values()) > len(text) * 0.8` is against 80% of the whole
line's length.  (`5 * max > 4 * len` is the exact rational comparison; the
float product `len * 0.8` differs from `len * 4/5` by under `len * 2⁻⁵⁰`,
far less than the distance from any integer `max` to a non-integer
threshold, and rounds to `len * 4/5` exactly when that is an integer, so
the integer comparison coincides with CPython's float one here.) -/
def corruptDrop (text : String) : Bool :=
  !text.data.isEmpty && text.length > 100 &&
    (let pref := text.data.take 200
     !pref.isEmpty && 5 * maxCharCount pref > 4 * text.length)

/-- The reader's visible state: the ring of raw lines
(`status['logs']`, a `deque()` constructed with no `maxlen` — source lines
156 and 1128-1129, both commented "No limit - keep all logs") and the
Status Store.  Each retained entry's wall-clock `time` string is
presentation metadata no claim reads; only `text` is kept. -/
structure ReaderState where
  logs : List String := []
  st : DashStatus := {}
deriving Repr, DecidableEq

def initReader : ReaderState := {}

/-- One `readline()` result pushed through source lines 1109-1130: drop
byte-lines over 1000 bytes; decode with `errors='ignore'` and strip; drop
lines the corruption heuristic flags; append the survivor to the ring and
classify it.  An exception escaping `parse_log_line` is swallowed by the
surrounding `try` (line 1153) after the append, so the ring keeps the entry
and the store keeps the partial mutations. -/
def readerStep (rs : ReaderState) (bytes : List Nat) : ReaderState :=
  if bytes.length > 1000 then rs
  else
    let text := stripS ⟨decodeUtf8Ignore bytes⟩
    if corruptDrop text then rs
    else if text = "" then rs
    else { logs := rs.logs ++ [text], st := (parseLogLine rs.st text).1 }

/-- A sequence of byte lines fed through the reader. -/
def feedReader (rs : ReaderState) (batches : List (List Nat)) : ReaderState :=
  batches.foldl readerStep rs

/-! ## The Flask route table (claim C7)

Every `@app.route` registration of web_dashboard.py (lines 3505-4877), in
source order, with its methods.  `flaskLookup` is Flask's URL match: a
request whose path matches no registered rule is answered 404 by the
framework and no handler of this module runs. -/

def appRoutes : List (String × List String) :=
  [("/", ["GET"]),
   ("/favicon.ico", ["GET"]),
   ("/api/reboot", ["POST"]),
   ("/api/status", ["GET"]),
   ("/api/debug", ["GET"]),
   ("/api/ports", ["GET"]),
   ("/api/spotify/config", ["POST"]),
   ("/api/spotify/config", ["GET"]),
   ("/api/spotify/auth/authorize", ["GET"]),
   ("/api/spotify/auth/callback", ["GET"]),
   ("/api/spotify/auth/status", ["GET"]),
   ("/api/spotify/auth/upload", ["POST"]),
   ("/api/spotify/auth/disconnect", ["POST"]),
   ("/api/spotify/devices", ["GET"]),
   ("/api/spotify/select_device", ["POST"]),
   ("/api/spotify/<action>", ["POST"]),
   ("/api/port", ["POST"]),
   ("/api/ai/chat", ["POST"]),
   ("/api/ai/read_file", ["POST"]),
   ("/api/ai/write_file", ["POST"]),
   ("/api/ai/build", ["POST"]),
   ("/api/ai/auto-review", ["POST"]),
   ("/api/ai/flash", ["POST"])]

/-- Split a path on `/`. -/
def splitSlash (s : String) : List (List Char) :=
  s.data.splitOn '/'

/-- One rule segment against one path segment: a `<converter>` placeholder
(Flask's default string converter) matches any nonempty segment; a literal
segment matches itself. -/
def segMatches (pat seg : List Char) : Bool :=
  match pat with
  | '<' :: rest =>
    if rest.getLast? = some '>' then !seg.isEmpty else pat == seg
  | _ => pat == seg

/-- A route rule against a request path. -/
def routeMatches (pattern path : String) : Bool :=
  let ps := splitSlash pattern
  let qs := splitSlash path
  ps.length = qs.length && (ps.zip qs).all fun pq => segMatches pq.1 pq.2

/-- Flask's rule lookup over this app's registrations. -/
def flaskLookup (path : String) : Option (String × List String) :=
  appRoutes.find? fun r => routeMatches r.1 path

/-- The path the dashboard page's `clearErrors()` posts to
(HTML_TEMPLATE, source line 3387: `fetch('/api/errors/clear',
{ method: 'POST' })`). -/
def clearErrorsRequestPath : String := "/api/errors/clear"

/-! ## The BLE chunked Wi-Fi list protocol (ble_client_test.py)

Notifications arrive already decoded (`data.decode('utf-8',
errors='replace')`, line 96); the model takes the decoded strings.  A
minimal `json.loads` covers the JSON subset these payloads use (strings
with `\"`/`\\` escapes, objects, arrays, integers, `true`/`false`/`null`). -/

inductive PyJson
  | jstr (s : String)
  | jnum (n : Int)
  | jbool (b : Bool)
  | jnull
  | jarr (xs : List PyJson)
  | jobj (kvs : List (String × PyJson))

def jsonWs (c : Char) : Bool := c = ' ' || c = '\t' || c = '\n' || c = '\r'

/-- A JSON string body after the opening quote: content and remainder. -/
def jsonStrBody : List Char → Option (String × List Char)
  | [] => none
  | '"' :: rest => some ("", rest)
  | '\\' :: e :: rest =>
    match jsonStrBody rest with
    | some (s, r) =>
      let c : Char :=
        if e = 'n' then '\n' else if e = 't' then '\t'
        else if e = 'r' then '\r' else e
      some (⟨c :: s.data⟩, r)
    | none => none
  | c :: rest =>
    match jsonStrBody rest with
    | some (s, r) => some (⟨c :: s.data⟩, r)
    | none => none

def jsonDigits (l : List Char) : List Char × List Char :=
  (l.takeWhile isDigitCh, l.dropWhile isDigitCh)

def digitsToNat (l : List Char) : Nat :=
  l.foldl (fun a c => a * 10 + (c.toNat - '0'.toNat)) 0

mutual

/-- One JSON value (fuel-bounded recursive descent). -/
def jsonVal (fuel : Nat) (l : List Char) : Option (PyJson × List Char) :=
  match fuel with
  | 0 => none
  | fuel + 1 =>
    match l.dropWhile jsonWs with
    | '"' :: rest =>
      match jsonStrBody rest with
      | some (s, r) => some (.jstr s, r)
      | none => none
    | '[' :: rest =>
      match (rest.dropWhile jsonWs) with
      | ']' :: r => some (.jarr [], r)
      | _ => jsonArrItems fuel rest []
    | '{' :: rest =>
      match (rest.dropWhile jsonWs) with
      | '}' :: r => some (.jobj [], r)
      | _ => jsonObjItems fuel rest []
    | 't' :: 'r' :: 'u' :: 'e' :: rest => some (.jbool true, rest)
    | 'f' :: 'a' :: 'l' :: 's' :: 'e' :: rest => some (.jbool false, rest)
    | 'n' :: 'u' :: 'l' :: 'l' :: rest => some (.jnull, rest)
    | '-' :: rest =>
      match jsonDigits rest with
      | ([], _) => none
      | (ds, r) => some (.jnum (-(digitsToNat ds : Int)), r)
    | rest =>
      match jsonDigits rest with
      | ([], _) => none
      | (ds, r) => some (.jnum (digitsToNat ds : Int), r)

def jsonArrItems (fuel : Nat) (l : List Char) (acc : List PyJson) :
    Option (PyJson × List Char) :=
  match fuel with
  | 0 => none
  | fuel + 1 =>
    match jsonVal fuel l with
    | none => none
    | some (v, r) =>
      match r.dropWhile jsonWs with
      | ',' :: r' => jsonArrItems fuel r' (acc ++ [v])
      | ']' :: r' => some (.jarr (acc ++ [v]), r')
      | _ => none

def jsonObjItems (fuel : Nat) (l : List Char) (acc : List (String × PyJson)) :
    Option (PyJson × List Char) :=
  match fuel with
  | 0 => none
  | fuel + 1 =>
    match l.dropWhile jsonWs with
    | '"' :: rest =>
      match jsonStrBody rest with
      | none => none
      | some (k, r) =>
        match r.dropWhile jsonWs with
        | ':' :: r' =>
          match jsonVal fuel r' with
          | none => none
          | some (v, r'') =>
            match r''.dropWhile jsonWs with
            | ',' :: r3 => jsonObjItems fuel r3 (acc ++ [(k, v)])
            | '}' :: r3 => some (.jobj (acc ++ [(k, v)]), r3)
            | _ => none
        | _ => none
    | _ => none

end

/-- `json.loads` (trailing garbage rejected). -/
def jsonLoads (s : String) : Option PyJson :=
  match jsonVal (s.length + 2) s.data with
  | some (v, r) => if (r.dropWhile jsonWs).isEmpty then some v else none
  | none => none

/-- `BLEConnection` (ble_client_test.py lines 46-60): `wifi_networks` holds
the chunks in arrival order, `collecting_wifi_list` / `wifi_list_complete`
the collection flags, `parsed_wifi_list` the parsed payload. -/
structure BleState where
  wifi_networks : List String := []
  collecting : Bool := false
  complete : Bool := false
  parsed : List PyJson := []

/-- `reset_wifi_collection()` (lines 55-60). -/
def resetWifi (_ : BleState) : BleState := {}

/-- `parse_and_display_wifi_list()` (lines 124-149): join the chunks in
order, `json.loads`, and keep the payload only when it is a JSON list. -/
def parseWifiList (s : BleState) : BleState :=
  if s.wifi_networks = [] then s
  else
    match jsonLoads (String.join s.wifi_networks) with
    | some (.jarr xs) => { s with parsed := xs }
    | _ => s

/-- `notification_handler` (lines 85-121) on one decoded notification. -/
def bleNotify (s : BleState) (t : String) : BleState :=
  if t = "WIFI_LIST_START" then { resetWifi s with collecting := true }
  else if t = "WIFI_LIST_END" then
    parseWifiList { s with collecting := false, complete := true }
  else if t = "WIFI_LIST_ERROR" then { s with collecting := false, complete := true }
  else if s.collecting then { s with wifi_networks := s.wifi_networks ++ [t] }
  else s

/-- A notification sequence from the initial connection state. -/
def bleRun (msgs : List String) : BleState :=
  msgs.foldl bleNotify {}

/-! ## Port switching (claim C4): an interleaving model

`api_set_port` (source lines 4263-4303) under `port_lock` closes the
connection and rebinds `current_port`, sleeps 0.3 s unconditionally, reads
`serial_thread.is_alive()`, and spawns a fresh `serial_reader` thread only
when none is alive.  The reader thread (lines 1039-1200) loops: inside its
read loop on port `p` it compares `current_port` with `p` each iteration
and on mismatch breaks out, then reopens whatever `current_port` then
holds.  `running` stays `True` until process shutdown, so a spawned reader
never exits within the modelled window (`threadAliveObs`). -/

/-- A reader thread's phase: inside the read loop on an open port, or
between loops about to open `current_port`. -/
inductive RPhase
  | reading (p : String)
  | reconnect
deriving Repr, DecidableEq

/-- A switch request's program counter: entered; past the 0.3 s sleep;
`is_alive()` observed; returned. -/
inductive SPhase
  | entered (q : String)
  | slept (q : String)
  | checked (q : String) (alive : Bool)
  | sdone
deriving Repr, DecidableEq

structure SwitchSys where
  currentPort : String
  readers : List RPhase
  sw1 : SPhase
  sw2 : SPhase
deriving Repr, DecidableEq

/-- `serial_thread.is_alive()`: a reader exists (none exits while
`running` is true). -/
def threadAliveObs (s : SwitchSys) : Bool := !s.readers.isEmpty

/-- One atomic step of a thread of the system. -/
inductive SwStep : SwitchSys → SwitchSys → Prop
  | rbreak (s : SwitchSys) (i : Nat) (p : String) :
      s.readers.get? i = some (.reading p) → s.currentPort ≠ p →
      SwStep s { s with readers := s.readers.set i .reconnect }
  | ropen (s : SwitchSys) (i : Nat) :
      s.readers.get? i = some .reconnect →
      SwStep s { s with readers := s.readers.set i (.reading s.currentPort) }
  | sig1 (s : SwitchSys) (q : String) :
      s.sw1 = .entered q →
      SwStep s { s with currentPort := q, sw1 := .slept q }
  | chk1 (s : SwitchSys) (q : String) :
      s.sw1 = .slept q →
      SwStep s { s with sw1 := .checked q (threadAliveObs s) }
  | fin1 (s : SwitchSys) (q : String) (b : Bool) :
      s.sw1 = .checked q b →
      SwStep s { s with sw1 := .sdone,
                        readers := if b then s.readers else s.readers ++ [.reconnect] }
  | sig2 (s : SwitchSys) (q : String) :
      s.sw2 = .entered q →
      SwStep s { s with currentPort := q, sw2 := .slept q }
  | chk2 (s : SwitchSys) (q : String) :
      s.sw2 = .slept q →
      SwStep s { s with sw2 := .checked q (threadAliveObs s) }
  | fin2 (s : SwitchSys) (q : String) (b : Bool) :
      s.sw2 = .checked q b →
      SwStep s { s with sw2 := .sdone,
                        readers := if b then s.readers else s.readers ++ [.reconnect] }

/-- Reachability under interleaving. -/
def SwReach : SwitchSys → SwitchSys → Prop := Relation.ReflTransGen SwStep

/-- Two rapid switch requests issued while one ingestion loop is actively
reading `"p0"` (the claim's scenario). -/
def c4init : SwitchSys :=
  { currentPort := "p0", readers := [.reading "p0"],
    sw1 := .entered "p1", sw2 := .entered "p2" }

/-- The state after the first switch runs start to finish with the reader
never scheduled: the switch has returned, yet the old loop is still inside
its read loop on the old port and has acknowledged nothing. -/
def c4noAck : SwitchSys :=
  { currentPort := "p1", readers := [.reading "p0"],
    sw1 := .sdone, sw2 := .entered "p2" }

/-! ## The poll snapshot's aliasing (claim C1): a two-level heap model

`api_status` (source lines 3580-3601) builds `status_copy = status.copy()`
— a top-level copy of the dict's slots — then rebinds `status_copy['logs'] =
list(status['logs'])` (a fresh list spine).  Nested container objects
(`status['stats']`, `status['error_log']`, …) keep their identity: the copy
and the live store hold the same addresses.  The heap maps addresses to the
mutable containers the claims exercise. -/

structure PyHeap where
  statsAt : Nat → StatsInfo
  logsAt : Nat → List String
  errAt : Nat → List String

/-- The top-level `status` dict: scalar slots by value, containers by
address. -/
structure TopStatus where
  wifi : String := "Unknown"
  statsAddr : Nat := 0
  logsAddr : Nat := 1
  errAddr : Nat := 2

structure Machine where
  heap : PyHeap
  top : TopStatus

def initMachine : Machine :=
  { heap := { statsAt := fun _ => {}, logsAt := fun _ => [], errAt := fun _ => [] },
    top := {} }

/-- What `api_status` hands the poller: scalar slots copied, `logs`
rebuilt as a fresh list of the current entries, the nested containers
still referenced by address. -/
structure StatusSnap where
  wifi : String
  statsAddr : Nat
  logsCopy : List String
  errAddr : Nat

def apiStatusSnap (m : Machine) : StatusSnap :=
  { wifi := m.top.wifi, statsAddr := m.top.statsAddr,
    logsCopy := m.heap.logsAt m.top.logsAddr, errAddr := m.top.errAddr }

/-- Reading the snapshot's `stats` later dereferences its stored address
against the machine's current heap — Python aliasing made explicit. -/
def snapStats (m : Machine) (s : StatusSnap) : StatsInfo :=
  m.heap.statsAt s.statsAddr

/-- The classifier's `Wi-Fi connected` event (source lines 329-330):
`status['wifi'] = 'Connected'` rebinds a top-level slot;
`status['stats']['wifi_connects'] += 1` mutates the stats dict in place. -/
def applyWifiConnectedEvt (m : Machine) : Machine :=
  { top := { m.top with wifi := "Connected" },
    heap := { m.heap with
      statsAt := fun a =>
        if a = m.top.statsAddr then
          let s := m.heap.statsAt m.top.statsAddr
          { s with wifi_connects := s.wifi_connects + 1 }
        else m.heap.statsAt a } }

/-- The reader's ring append (source line 1128): `status['logs'].append(…)`
mutates the deque in place. -/
def appendLogEvt (m : Machine) (e : String) : Machine :=
  { m with heap := { m.heap with
      logsAt := fun a =>
        if a = m.top.logsAddr then m.heap.logsAt m.top.logsAddr ++ [e]
        else m.heap.logsAt a } }

/-! ## Concrete inputs and invariants used by the theorems -/

/-- A neutral log line: matches no classifier pattern. -/
def helloBytes : List Nat := [104, 101, 108, 108, 111]

/-- A line matching both the firmware-version category (first in source
order) and the Wi-Fi category. -/
def c2line : String := "Firmware Version: 1.2.3 and Wi-Fi connected"

/-- An ascending, duplicate-free device list. -/
def sortedNodup (l : List Nat) : Prop :=
  List.Sorted (· ≤ ·) l ∧ l.Nodup

/-- Both bus-scan device lists ascending and duplicate-free. -/
def statusInv (st : DashStatus) : Prop :=
  sortedNodup st.sensor_bus.devices ∧ sortedNodup st.audio_bus.devices

/-- A line sequence pushed through the classifier alone (states as
`parse_log_line` leaves them, exceptions swallowed by the reader). -/
def classifyLines (lines : List String) : DashStatus :=
  lines.foldl (fun st ln => (parseLogLine st ln).1) initStatus

/-- An error history already at the retention cap, with 50 distinct
messages (for the C5 witness). -/
def c5fullLog : List String :=
  (List.range 50).map fun i => "boot failure " ++ toString i

/-- A critical-error line for the C5 witness. -/
def c5line : String := "Guru Meditation Error: Core 1 panicked"

/-- A status whose error history is at the retention cap (C5 witness). -/
def c5state : DashStatus :=
  { initStatus with error_log := c5fullLog, disk_errors := c5fullLog }

/-- The C4 invariant strengthened for induction: one reader exists, and
every recorded `is_alive()` observation was `true` (a spawned reader never
exits while `running` holds, so the spawn branch is never taken). -/
def c4inv (s : SwitchSys) : Prop :=
  s.readers.length = 1 ∧
  (∀ q b, s.sw1 = .checked q b → b = true) ∧
  (∀ q b, s.sw2 = .checked q b → b = true)

/-! # Theorems -/

/-! ## Shared lemmas -/

/-- One reader iteration either drops the byte line or appends exactly its
permissive decode, stripped. -/
theorem readerStep_logs (rs : ReaderState) (b : List Nat) :
    (readerStep rs b).logs = rs.logs ∨
    (readerStep rs b).logs = rs.logs ++ [stripS ⟨decodeUtf8Ignore b⟩] := by
  unfold readerStep
  dsimp only
  split
  · exact Or.inl rfl
  · split
    · exact Or.inl rfl
    · split
      · exact Or.inl rfl
      · exact Or.inr rfl

/-- Feeding any batch only ever appends to the ring. -/
theorem feedReader_extends (rs : ReaderState) (batches : List (List Nat)) :
    ∃ t, (feedReader rs batches).logs = rs.logs ++ t := by
  induction batches generalizing rs with
  | nil => exact ⟨[], by simp [feedReader]⟩
  | cons b bs ih =>
    have hstep := readerStep_logs rs b
    obtain ⟨t, ht⟩ := ih (readerStep rs b)
    rcases hstep with h | h
    · exact ⟨t, by simpa [feedReader, h] using ht⟩
    · exact ⟨stripS ⟨decodeUtf8Ignore b⟩ :: t, by simp [feedReader] at ht ⊢; rw [ht, h]; simp⟩

/-- The neutral line is accepted and appended verbatim. -/
theorem readerStep_hello (rs : ReaderState) :
    (readerStep rs helloBytes).logs = rs.logs ++ ["hello"] := by
  have h1 : ¬ (helloBytes.length > 1000) := by decide
  have h2 : stripS ⟨decodeUtf8Ignore helloBytes⟩ = "hello" := by decide
  have h3 : corruptDrop "hello" = false := by decide
  simp [readerStep, h1, h2, h3]

/-- Exactly one ring entry per accepted neutral line: nothing is evicted. -/
theorem feedReader_hello_growth (rs : ReaderState) (n : Nat) :
    (feedReader rs (List.replicate n helloBytes)).logs.length = rs.logs.length + n := by
  induction n generalizing rs with
  | zero => simp [feedReader]
  | succ k ih =>
    have : feedReader rs (List.replicate (k + 1) helloBytes)
        = feedReader (readerStep rs helloBytes) (List.replicate k helloBytes) := by
      simp [feedReader, List.replicate_succ]
    rw [this, ih, readerStep_hello]
    simp
    omega

/-! ## C1 — the poll snapshot is a shallow copy, not a deep one -/

/-- C1, counterexample: take the poll snapshot of the fresh store, then let
the classifier apply one `Wi-Fi connected` event.  Reading the snapshot's
`stats` afterwards (through the address it retained) shows the post-snapshot
mutation: `wifi_connects` has become 1, though it was 0 when the snapshot
was taken.  The claim's "applying any classifier event after the snapshot is
taken leaves the snapshot's contents unchanged" is false on the code:
`api_status` builds `status.copy()`, which shares every nested dict. -/
theorem C1_shared_stats_cex :
    (snapStats (applyWifiConnectedEvt initMachine) (apiStatusSnap initMachine)).wifi_connects = 1 ∧
    (snapStats initMachine (apiStatusSnap initMachine)).wifi_connects = 0 :=
  ⟨rfl, rfl⟩

/-- C1, amended: the poll snapshot is a SHALLOW copy.  Top-level scalar
slots are copied by value (a later rebinding such as `status['wifi'] =
'Connected'` is invisible through the snapshot), and `logs` is rebuilt as a
fresh list (later in-place appends to the live deque grow the live ring past
the snapshot's fixed copy); but nested containers such as `stats` keep their
identity, so in-place mutation by a later classifier event is observable
through the snapshot. -/
theorem C1_shallow_amended (m : Machine) (e : String) :
    (apiStatusSnap m).wifi = m.top.wifi ∧
    (applyWifiConnectedEvt m).top.wifi = "Connected" ∧
    (apiStatusSnap m).logsCopy = m.heap.logsAt m.top.logsAddr ∧
    ((appendLogEvt m e).heap.logsAt (appendLogEvt m e).top.logsAddr
      = (apiStatusSnap m).logsCopy ++ [e]) ∧
    (snapStats (applyWifiConnectedEvt m) (apiStatusSnap m)
      = { snapStats m (apiStatusSnap m) with
            wifi_connects := (snapStats m (apiStatusSnap m)).wifi_connects + 1 }) := by
  refine ⟨rfl, rfl, rfl, ?_, ?_⟩
  · simp [appendLogEvt, apiStatusSnap]
  · simp [snapStats, applyWifiConnectedEvt, apiStatusSnap]

/-! ## C2 — an exception in one category's handler aborts the whole line -/

/-- C2: the firmware-version branch (source lines 246-250) assigns into
`status['firmware']`, a key the status dict never defines, so a line whose
firmware regex matches raises `KeyError('firmware')` out of
`parse_log_line`; the reader's blanket `except` swallows it, and no later
category of the same line is evaluated.  Here the same line also matches
the Wi-Fi category's first rule (as the last three conjuncts certify), yet
`wifi` stays `"Unknown"`, where the claim requires it to become
`"Connected"` (as `wifiBlock` alone would have made it). -/
theorem C2_keyerror_aborts_line :
    (parseLogLine initStatus c2line).2 = some (PyErr.keyError "firmware") ∧
    (parseLogLine initStatus c2line).1 = initStatus ∧
    containsS (strLower c2line) "wi-fi" = true ∧
    containsS (strLower c2line) "connected" = true ∧
    containsS (strLower c2line) "fail" = false ∧
    (wifiBlock initStatus ((strLower c2line).data)).wifi = "Connected" := by
  refine ⟨rfl, rfl, by decide, by decide, by decide, rfl⟩

/-! ## C7 — no route serves the dashboard's error-log clear request -/

/-- C7: `clearErrors()` in the served page posts to `/api/errors/clear`
(source line 3387), but the Flask app registers no rule matching that path
(the only parameterised rule is `/api/spotify/<action>`), so the framework
answers 404 and no handler of the module runs: neither `status['error_log']`
nor `error_log.json` is touched.  The second conjunct shows the lookup is
not trivially empty. -/
theorem C7_clear_route_missing :
    flaskLookup clearErrorsRequestPath = none ∧
    (flaskLookup "/api/status").isSome = true := by
  constructor
  · decide
  · decide

/-! ## C3 — the ring of recent lines is unbounded, nothing is ever evicted -/

/-- C3, counterexample (the claim's negation): no fixed capacity bounds the
ring.  `status['logs']` is a `deque()` constructed without `maxlen` and the
reader appends with no trimming (both sites commented "No limit - keep all
logs"), so for any claimed capacity `C`, feeding `C + 1` accepted lines
leaves `C + 1` entries. -/
theorem C3_ring_capacity_cex :
    ¬ ∃ C : Nat, ∀ batches : List (List Nat),
        (feedReader initReader batches).logs.length ≤ C := by
  rintro ⟨C, h⟩
  have hg := feedReader_hello_growth initReader (C + 1)
  rw [show initReader.logs.length = 0 from rfl] at hg
  have hb := h (List.replicate (C + 1) helloBytes)
  omega

/-- C3, amended: the ring buffer is unbounded — every accepted line is
appended and nothing is ever evicted, so the old buffer is always a prefix
of the new one (order preserved), and `n` accepted lines leave exactly `n`
entries. -/
theorem C3_ring_unbounded_amended :
    (∀ rs batches, rs.logs <+: (feedReader rs batches).logs) ∧
    (∀ n, (feedReader initReader (List.replicate n helloBytes)).logs.length = n) := by
  constructor
  · intro rs batches
    obtain ⟨t, ht⟩ := feedReader_extends rs batches
    exact ⟨t, ht.symm⟩
  · intro n
    have h := feedReader_hello_growth initReader n
    rw [h, show initReader.logs.length = 0 from rfl]
    omega

/-! ## C9 — decode never raises, but invalid bytes are removed, not replaced -/

/-- C9, counterexample: the byte line `68 FF 69` is not dropped and not
substitution-decoded: it is ingested as `"hi"` (the invalid byte removed,
`errors='ignore'`), while the spec's replacement decoding would give
`"h�i"`. -/
theorem C9_ignore_not_replace_cex :
    (readerStep initReader [104, 255, 105]).logs = ["hi"] ∧
    String.mk (decodeUtf8ReplaceSpec [104, 255, 105]) = "h�i" ∧
    ("hi" : String) ≠ "h�i" := by
  refine ⟨by decide, by decide, by decide⟩

/-- C9, amended: ingestion of a raw byte line is total — the line is either
dropped or appended as its permissive decode in which ill-formed sequences
are REMOVED (`errors='ignore'`), never propagated as an error; in
particular an invalid lead byte such as `0xFF` simply disappears from the
decode. -/
theorem C9_never_raises_amended :
    (∀ rs b, (readerStep rs b).logs = rs.logs ∨
      (readerStep rs b).logs = rs.logs ++ [stripS ⟨decodeUtf8Ignore b⟩]) ∧
    (∀ r : List Nat, decodeUtf8Ignore (255 :: r) = decodeUtf8Ignore r) := by
  constructor
  · exact readerStep_logs
  · intro r
    rfl

/-! ## C6 — the corruption heuristic samples only the first 200 characters -/

theorem foldr_max_le {xs : List Nat} {n : Nat} (h : ∀ x ∈ xs, x ≤ n) :
    xs.foldr Nat.max 0 ≤ n := by
  induction xs with
  | nil => simp
  | cons a as ih =>
    simp only [List.foldr]
    exact Nat.max_le.mpr ⟨h a (by simp), ih fun x hx => h x (by simp [hx])⟩

theorem maxCharCount_le_length (l : List Char) : maxCharCount l ≤ l.length := by
  unfold maxCharCount
  refine foldr_max_le fun x hx => ?_
  obtain ⟨c, -, rfl⟩ := List.mem_map.mp hx
  exact List.count_le_length c l

/-- C6, counterexample: a 300-character line consisting of a single repeated
character — one character accounts for 100% (> 80%) of a line longer than
100 characters, so the claim requires it dropped — is accepted and appended
to the ring: the heuristic counts only `text[:200]`, and that count (at most
200) can never exceed 80% of a length-300 line. -/
theorem C6_long_line_kept_cex :
    (readerStep initReader (List.replicate 300 97)).logs
      = [String.mk (List.replicate 300 'a')] ∧
    (String.mk (List.replicate 300 'a')).length = 300 ∧
    maxCharCount (String.mk (List.replicate 300 'a')).data = 300 ∧
    5 * 300 > 4 * 300 := by
  set_option maxRecDepth 8000 in
  refine ⟨by decide, by decide, by decide, by decide⟩

/-- C6, amended: the heuristic counts characters only within the first 200
of the line and compares against 80% of the full length.  Hence (i) a line
longer than 250 characters is never dropped by the heuristic, whatever its
contents; (ii) for lines of at most 200 characters the claim's reading
holds: longer than 100 characters and one character over 80% of the line
means dropped. -/
theorem C6_sample_window_amended (t : String) :
    (t.length > 250 → corruptDrop t = false) ∧
    (t.length > 100 → t.length ≤ 200 →
      5 * maxCharCount t.data > 4 * t.length → corruptDrop t = true) := by
  constructor
  · intro h250
    have hm : maxCharCount (t.data.take 200) ≤ (t.data.take 200).length :=
      maxCharCount_le_length _
    have hl : (t.data.take 200).length ≤ 200 := by
      simp [List.length_take]
    have hD : decide (5 * maxCharCount (t.data.take 200) > 4 * t.length) = false :=
      decide_eq_false (by omega)
    simp only [corruptDrop, hD, Bool.and_false]
  · intro h100 h200 hdom
    have hlen : t.length = t.data.length := rfl
    have htake : t.data.take 200 = t.data :=
      List.take_of_length_le (by omega)
    have hne : t.data.isEmpty = false := by
      cases hd : t.data with
      | nil => rw [hlen, hd] at h100; simp at h100
      | cons c r => simp
    simp only [corruptDrop, htake, hne, Bool.not_false, Bool.true_and]
    have h1 : decide (t.length > 100) = true := decide_eq_true h100
    have h2 : decide (5 * maxCharCount t.data > 4 * t.length) = true :=
      decide_eq_true hdom
    simp [h1, h2]

/-! ## C8 — chunk reassembly is ordered, but an ERROR does not discard -/

/-- C8, counterexample: after `WIFI_LIST_START`, one fragment, then
`WIFI_LIST_ERROR`, the accumulated fragment is NOT discarded — the handler
only clears the collecting flag (`reset_wifi_collection` is not called on
the error path) — though no payload is produced. -/
theorem C8_error_keeps_chunks_cex :
    (bleRun ["WIFI_LIST_START", "x", "WIFI_LIST_ERROR"]).wifi_networks = ["x"] ∧
    (bleRun ["WIFI_LIST_START", "x", "WIFI_LIST_ERROR"]).wifi_networks ≠ [] ∧
    (bleRun ["WIFI_LIST_START", "x", "WIFI_LIST_ERROR"]).parsed = [] ∧
    (bleRun ["WIFI_LIST_START", "x", "WIFI_LIST_ERROR"]).collecting = false := by
  refine ⟨rfl, by decide, rfl, rfl⟩

/-- C8, amended: fragments between START and END are concatenated in exact
arrival order with no reordering or deduplication, and the reconstructed
payload of the claim's fragments parses as the JSON list `[{"ssid":"A"}]`;
a `WIFI_LIST_ERROR` stops collection and produces no payload, but the
accumulated fragments are retained until the next collection start. -/
theorem C8_order_and_error_amended :
    ((bleRun ["WIFI_LIST_START", "[\x7b\"ssid\":\"A\"\x7d", "]", "WIFI_LIST_END"]).parsed
        = [PyJson.jobj [("ssid", PyJson.jstr "A")]]) ∧
    ((bleRun ["WIFI_LIST_START", "[\x7b\"ssid\":\"A\"\x7d", "]", "WIFI_LIST_END"]).wifi_networks
        = ["[\x7b\"ssid\":\"A\"\x7d", "]"]) ∧
    (∀ (s : BleState) (frags : List String), s.collecting = true →
      (∀ f ∈ frags, f ≠ "WIFI_LIST_START" ∧ f ≠ "WIFI_LIST_END" ∧ f ≠ "WIFI_LIST_ERROR") →
      (frags.foldl bleNotify s).wifi_networks = s.wifi_networks ++ frags ∧
      (frags.foldl bleNotify s).collecting = true ∧
      (frags.foldl bleNotify s).parsed = s.parsed) ∧
    (∀ s : BleState, (bleNotify s "WIFI_LIST_ERROR").parsed = s.parsed ∧
          (bleNotify s "WIFI_LIST_ERROR").collecting = false) := by
  refine ⟨?_, ?_, ?_, ?_⟩
  · rfl
  · rfl
  · intro s frags
    induction frags generalizing s with
    | nil =>
      intro hcol _
      exact ⟨by simp, hcol, rfl⟩
    | cons f fs ih =>
      intro hcol hmk
      have hf := hmk f (by simp)
      have hstep : bleNotify s f = { s with wifi_networks := s.wifi_networks ++ [f] } := by
        simp [bleNotify, hf.1, hf.2.1, hf.2.2, hcol]
      have hrest := ih { s with wifi_networks := s.wifi_networks ++ [f] } hcol
        (fun g hg => hmk g (by simp [hg]))
      simp only [List.foldl, hstep]
      refine ⟨?_, hrest.2.1, hrest.2.2⟩
      rw [hrest.1]
      simp
  · intro s
    constructor
    · simp [bleNotify]
    · simp [bleNotify]

/-! ## C4 — port switching: one loop, but no acknowledgment wait -/

theorem c4init_inv : c4inv c4init := by
  refine ⟨rfl, ?_, ?_⟩ <;> · intro q b h; simp [c4init] at h

theorem c4inv_step {s s' : SwitchSys} (hstep : SwStep s s') (hinv : c4inv s) :
    c4inv s' := by
  obtain ⟨hlen, h1, h2⟩ := hinv
  have halive : threadAliveObs s = true := by
    unfold threadAliveObs
    cases hr : s.readers with
    | nil => rw [hr] at hlen; simp at hlen
    | cons a as => simp
  cases hstep with
  | rbreak i p hget hne =>
    exact ⟨by simpa using hlen, h1, h2⟩
  | ropen i hget =>
    exact ⟨by simpa using hlen, h1, h2⟩
  | sig1 q h =>
    refine ⟨hlen, ?_, h2⟩
    intro q' b' hh
    simp at hh
  | chk1 q h =>
    refine ⟨hlen, ?_, h2⟩
    intro q' b' hh
    injection hh with hq hb
    rw [← hb]
    exact halive
  | fin1 q b h =>
    have hb : b = true := h1 q b h
    subst hb
    refine ⟨by simp [hlen], ?_, h2⟩
    intro q' b' hh
    simp at hh
  | sig2 q h =>
    refine ⟨hlen, h1, ?_⟩
    intro q' b' hh
    simp at hh
  | chk2 q h =>
    refine ⟨hlen, h1, ?_⟩
    intro q' b' hh
    injection hh with hq hb
    rw [← hb]
    exact halive
  | fin2 q b h =>
    have hb : b = true := h2 q b h
    subst hb
    refine ⟨by simp [hlen], h1, ?_⟩
    intro q' b' hh
    simp at hh

theorem c4reach_inv {s : SwitchSys} (h : SwReach c4init s) : c4inv s := by
  induction h with
  | refl => exact c4init_inv
  | tail _ hstep ih => exact c4inv_step hstep ih

/-- C4, amended: while an ingestion loop is active, two rapid switch
requests leave exactly one ingestion loop in every reachable interleaving —
the switch rebinds the shared port as its stop signal and spawns a thread
only when none is alive (never, here, since the reader survives); the
single reader itself exits its read loop and reopens.  The switch performs
no acknowledgment wait (see the counterexample). -/
theorem C4_single_loop_amended (s : SwitchSys) (h : SwReach c4init s) :
    s.readers.length = 1 :=
  (c4reach_inv h).1

theorem C4_single_loop_witness : c4init.readers.length = 1 :=
  C4_single_loop_amended c4init Relation.ReflTransGen.refl

/-- C4, counterexample to the acknowledgment wait: a reachable interleaving
in which the first switch request has run to completion (`sdone` — it
signalled, slept its fixed 0.3 s, observed the thread alive and returned
success) while the old ingestion loop never acknowledged anything: it is
still inside its read loop on the OLD port `"p0"` even though the shared
port is already `"p1"`.  The claim's "waits for its acknowledgment (bounded
timeout) before the new identifier is opened and ingestion restarts" names
a synchronization the code does not perform — `api_set_port` only sleeps
unconditionally. -/
theorem C4_no_ack_cex :
    SwReach c4init c4noAck ∧ c4noAck.sw1 = SPhase.sdone ∧
    c4noAck.readers = [RPhase.reading "p0"] ∧ c4noAck.currentPort = "p1" := by
  refine ⟨?_, rfl, rfl, rfl⟩
  refine Relation.ReflTransGen.head (SwStep.sig1 _ "p1" rfl) ?_
  refine Relation.ReflTransGen.head (SwStep.chk1 _ "p1" rfl) ?_
  refine Relation.ReflTransGen.head (SwStep.fin1 _ "p1" true rfl) ?_
  exact Relation.ReflTransGen.refl

/-! ## C5 — error recording: dedup, oldest-first eviction, synchronous flush -/

theorem dropWhile_fix (p : Char → Bool) (l : List Char) :
    (l.dropWhile p).dropWhile p = l.dropWhile p := by
  induction l with
  | nil => rfl
  | cons c r ih =>
    by_cases h : p c
    · simp [List.dropWhile_cons, h, ih]
    · simp [List.dropWhile_cons, h]

theorem dropWhile_of_prefix_fix {p : Char → Bool} {a b : List Char}
    (hpre : a <+: b) (hfix : b.dropWhile p = b) : a.dropWhile p = a := by
  obtain ⟨t, ht⟩ := hpre
  cases a with
  | nil => rfl
  | cons x a' =>
    have hb : b = x :: (a' ++ t) := by rw [← ht]; simp
    have hx : p x = false := by
      by_contra hcontra
      have hpx : p x = true := by
        cases hpx : p x
        · exact absurd hpx hcontra
        · rfl
      rw [hb, List.dropWhile_cons, if_pos hpx] at hfix
      have hlen := congrArg List.length hfix
      have hle : (List.dropWhile p (a' ++ t)).length ≤ (a' ++ t).length :=
        (List.dropWhile_suffix p).sublist.length_le
      simp only [List.length_cons] at hlen
      omega
    rw [List.dropWhile_cons]
    simp [hx]

theorem stripL_idem (l : List Char) : stripL (stripL l) = stripL l := by
  set p := isPySpace with hp
  set B := l.dropWhile p with hB
  have hBfix : B.dropWhile p = B := dropWhile_fix p l
  set A := (B.reverse.dropWhile p).reverse with hA
  have hArev : A.reverse = B.reverse.dropWhile p := by
    rw [hA, List.reverse_reverse]
  have hArevfix : A.reverse.dropWhile p = A.reverse := by
    rw [hArev]
    exact dropWhile_fix p B.reverse
  have hsuf : A.reverse <:+ B.reverse := by
    rw [hArev]
    exact List.dropWhile_suffix p
  have hpre : A <+: B := by
    rw [← List.reverse_reverse A, ← List.reverse_reverse B] at hsuf ⊢
    exact (List.reverse_suffix).mp (by simpa using hsuf)
  have hAfix : A.dropWhile p = A := dropWhile_of_prefix_fix hpre hBfix
  show ((A.dropWhile p).reverse.dropWhile p).reverse = A
  rw [hAfix, hArevfix, List.reverse_reverse]

theorem stripS_idem (s : String) : stripS (stripS s) = stripS s := by
  show (⟨stripL (stripL s.data)⟩ : String) = ⟨stripL s.data⟩
  rw [stripL_idem]

theorem criticalBlock_novel {st : DashStatus} {line : String} {l : List Char}
    (hcrit : isCriticalLine l = true)
    (hfresh : st.error_log.any
      (fun e => pyHash (stripS e) = pyHash (stripS line)) = false) :
    criticalBlock st line l =
      { st with
        error_log :=
          if (st.error_log ++ [stripS line]).length > 50 then
            (st.error_log ++ [stripS line]).drop
              ((st.error_log ++ [stripS line]).length - 50)
          else st.error_log ++ [stripS line],
        disk_errors :=
          if (st.error_log ++ [stripS line]).length > 50 then
            (st.error_log ++ [stripS line]).drop
              ((st.error_log ++ [stripS line]).length - 50)
          else st.error_log ++ [stripS line],
        stats := { st.stats with errors := st.stats.errors + 1 } } := by
  unfold criticalBlock
  rw [if_pos hcrit, if_neg (by rw [hfresh]; exact Bool.false_ne_true)]

theorem criticalBlock_dup {st : DashStatus} {line : String} {l : List Char}
    (hdup : st.error_log.any
      (fun e => pyHash (stripS e) = pyHash (stripS line)) = true) :
    criticalBlock st line l = st := by
  unfold criticalBlock
  split
  · rw [if_pos hdup]
  · rfl

/-- C5: recording a critical error whose message hash is not yet in the
history (in-memory list, which `load_error_log()` seeded from the persisted
file at startup) gives: exactly one record for that message; recording the
identical text again changes nothing (hash dedup); the persisted file holds
exactly the new in-memory history (synchronous flush before the operation
completes); and when the history stood at the 50-record cap, the oldest
record is the one evicted and the newest is kept. -/
theorem C5_error_record (st : DashStatus) (line : String)
    (hcrit : isCriticalLine ((strLower line).data) = true)
    (hfresh : st.error_log.any
      (fun e => pyHash (stripS e) = pyHash (stripS line)) = false) :
    (criticalBlock st line ((strLower line).data)).error_log.count (stripS line) = 1 ∧
    criticalBlock (criticalBlock st line ((strLower line).data)) line
        ((strLower line).data)
      = criticalBlock st line ((strLower line).data) ∧
    (criticalBlock st line ((strLower line).data)).disk_errors
      = (criticalBlock st line ((strLower line).data)).error_log ∧
    (st.error_log.length = 50 →
      (criticalBlock st line ((strLower line).data)).error_log
        = st.error_log.drop 1 ++ [stripS line]) := by
  have hstrip : stripS (stripS line) = stripS line := stripS_idem line
  have hmem : stripS line ∉ st.error_log := by
    intro hm
    have hany : st.error_log.any
        (fun e => pyHash (stripS e) = pyHash (stripS line)) = true :=
      List.any_eq_true.mpr ⟨stripS line, hm, by simp [hstrip]⟩
    rw [hfresh] at hany
    exact Bool.false_ne_true hany
  have hshape := criticalBlock_novel hcrit hfresh
  have hcount0 : st.error_log.count (stripS line) = 0 :=
    List.count_eq_zero.mpr hmem
  -- the new history in both the capped and uncapped branch
  have hlog : (criticalBlock st line ((strLower line).data)).error_log
      = (if (st.error_log ++ [stripS line]).length > 50 then
          (st.error_log ++ [stripS line]).drop
            ((st.error_log ++ [stripS line]).length - 50)
        else st.error_log ++ [stripS line]) := by rw [hshape]
  have hdecomp : ∃ pre, pre.Sublist st.error_log ∧
      (criticalBlock st line ((strLower line).data)).error_log
        = pre ++ [stripS line] := by
    rw [hlog]
    split
    · next hgt =>
      refine ⟨st.error_log.drop ((st.error_log ++ [stripS line]).length - 50), ?_, ?_⟩
      · exact List.drop_sublist _ _
      · rw [List.drop_append_eq_append_drop]
        have hk : (st.error_log ++ [stripS line]).length - 50 ≤ st.error_log.length := by
          simp only [List.length_append, List.length_singleton] at hgt ⊢
          omega
        rw [Nat.sub_eq_zero_of_le hk]
        rfl
    · exact ⟨st.error_log, List.Sublist.refl _, rfl⟩
  obtain ⟨pre, hpre, hlogeq⟩ := hdecomp
  have hprecount : pre.count (stripS line) = 0 :=
    Nat.le_zero.mp (hcount0 ▸ hpre.count_le (stripS line))
  have hcount1 : (criticalBlock st line ((strLower line).data)).error_log.count
      (stripS line) = 1 := by
    rw [hlogeq, List.count_append, hprecount]
    simp
  refine ⟨hcount1, ?_, ?_, ?_⟩
  · -- duplicate insert is a no-op
    apply criticalBlock_dup
    refine List.any_eq_true.mpr ⟨stripS line, ?_, by simp [hstrip]⟩
    rw [hlogeq]
    exact List.mem_append_right _ (by simp)
  · rw [hshape]
  · intro h50
    rw [hlog]
    have hlen : (st.error_log ++ [stripS line]).length = 51 := by simp [h50]
    rw [if_pos (by rw [hlen]; omega), hlen]
    rw [List.drop_append_eq_append_drop]
    have : (51 - 50 : Nat) = 1 := rfl
    rw [this, Nat.sub_eq_zero_of_le (by omega : (1 : Nat) ≤ st.error_log.length)]
    rfl

/-- C5 witness: a history at the 50-record cap, all hashes distinct from the
new line's; recording gives one record, re-recording changes nothing, the
persisted file equals the memory, and the oldest record is evicted. -/
theorem C5_error_record_witness :
    (criticalBlock c5state c5line ((strLower c5line).data)).error_log.count
      (stripS c5line) = 1 ∧
    criticalBlock (criticalBlock c5state c5line ((strLower c5line).data)) c5line
        ((strLower c5line).data)
      = criticalBlock c5state c5line ((strLower c5line).data) ∧
    (criticalBlock c5state c5line ((strLower c5line).data)).disk_errors
      = (criticalBlock c5state c5line ((strLower c5line).data)).error_log ∧
    (criticalBlock c5state c5line ((strLower c5line).data)).error_log
      = c5state.error_log.drop 1 ++ [stripS c5line] := by
  obtain ⟨h1, h2, h3, h4⟩ := C5_error_record c5state c5line (by decide) (by decide)
  exact ⟨h1, h2, h3, h4 (by decide)⟩

/-! ## C10 — I2C device lists stay sorted and duplicate-free -/

theorem statusInv_of_buses {st st' : DashStatus}
    (h1 : st'.sensor_bus.devices = st.sensor_bus.devices)
    (h2 : st'.audio_bus.devices = st.audio_bus.devices)
    (h : statusInv st) : statusInv st' := by
  unfold statusInv at *
  rw [h1, h2]
  exact h

theorem versionBlock_devices (st : DashStatus) (l : List Char) :
    (versionBlock st l).sensor_bus.devices = st.sensor_bus.devices ∧
    (versionBlock st l).audio_bus.devices = st.audio_bus.devices :=
  ⟨rfl, rfl⟩

theorem wifiBlock_devices (st : DashStatus) (l : List Char) :
    (wifiBlock st l).sensor_bus.devices = st.sensor_bus.devices ∧
    (wifiBlock st l).audio_bus.devices = st.audio_bus.devices := by
  delta wifiBlock
  constructor
  · repeat (any_goals split)
    all_goals rfl
  · repeat (any_goals split)
    all_goals rfl

theorem ipBlock_devices (st : DashStatus) (l : List Char) :
    (ipBlock st l).sensor_bus.devices = st.sensor_bus.devices ∧
    (ipBlock st l).audio_bus.devices = st.audio_bus.devices := by
  delta ipBlock
  constructor
  · repeat (any_goals split)
    all_goals rfl
  · repeat (any_goals split)
    all_goals rfl

theorem awsBlock_devices (st : DashStatus) (l : List Char) :
    (awsBlock st l).1.sensor_bus.devices = st.sensor_bus.devices ∧
    (awsBlock st l).1.audio_bus.devices = st.audio_bus.devices := by
  delta awsBlock
  rcases h : awsCalc st.aws st.aws_device_id l with ⟨a, d, e⟩
  exact ⟨rfl, rfl⟩

theorem wakeBlock_devices (st : DashStatus) (l : List Char) :
    (wakeBlock st l).sensor_bus.devices = st.sensor_bus.devices ∧
    (wakeBlock st l).audio_bus.devices = st.audio_bus.devices := by
  delta wakeBlock
  constructor
  · repeat (any_goals split)
    all_goals rfl
  · repeat (any_goals split)
    all_goals rfl

theorem criticalBlock_devices (st : DashStatus) (line : String) (l : List Char) :
    (criticalBlock st line l).sensor_bus.devices = st.sensor_bus.devices ∧
    (criticalBlock st line l).audio_bus.devices = st.audio_bus.devices := by
  by_cases h1 : isCriticalLine l = true
  · by_cases h2 : st.error_log.any
        (fun e => pyHash (stripS e) = pyHash (stripS line)) = true
    · rw [criticalBlock_dup h2]
      exact ⟨rfl, rfl⟩
    · have h2f : st.error_log.any
          (fun e => pyHash (stripS e) = pyHash (stripS line)) = false := by
        revert h2
        cases st.error_log.any (fun e => pyHash (stripS e) = pyHash (stripS line)) <;> simp
      rw [criticalBlock_novel h1 h2f]
      exact ⟨rfl, rfl⟩
  · unfold criticalBlock
    rw [if_neg h1]
    exact ⟨rfl, rfl⟩

theorem errorsStatBlock_devices (st : DashStatus) (l : List Char) :
    (errorsStatBlock st l).sensor_bus.devices = st.sensor_bus.devices ∧
    (errorsStatBlock st l).audio_bus.devices = st.audio_bus.devices := by
  delta errorsStatBlock
  constructor
  · repeat (any_goals split)
    all_goals rfl
  · repeat (any_goals split)
    all_goals rfl

theorem i2cTotalBlock_devices (st : DashStatus) (l : List Char) :
    (i2cTotalBlock st l).sensor_bus.devices = st.sensor_bus.devices ∧
    (i2cTotalBlock st l).audio_bus.devices = st.audio_bus.devices := by
  delta i2cTotalBlock setBus getBus
  constructor
  · repeat (any_goals split)
    all_goals rfl
  · repeat (any_goals split)
    all_goals rfl

theorem i2cEndBlock_devices (st : DashStatus) (l : List Char) :
    (i2cEndBlock st l).sensor_bus.devices = st.sensor_bus.devices ∧
    (i2cEndBlock st l).audio_bus.devices = st.audio_bus.devices := by
  delta i2cEndBlock
  dsimp only
  constructor
  · repeat (any_goals split)
    all_goals rfl
  · repeat (any_goals split)
    all_goals rfl

theorem i2cFailBlock_devices (st : DashStatus) (l : List Char) :
    (i2cFailBlock st l).sensor_bus.devices = st.sensor_bus.devices ∧
    (i2cFailBlock st l).audio_bus.devices = st.audio_bus.devices := by
  delta i2cFailBlock setBus getBus
  constructor
  · repeat (any_goals split)
    all_goals rfl
  · repeat (any_goals split)
    all_goals rfl

theorem i2cAddDevice_keeps {l : List Nat} {a : Nat} (h : sortedNodup l) :
    sortedNodup (i2cAddDevice l a) := by
  unfold i2cAddDevice
  split
  · exact h
  · next hnotmem =>
    have hnd : (l ++ [a]).Nodup := by
      rw [List.nodup_append]
      refine ⟨h.2, List.nodup_singleton a, ?_⟩
      intro x hx hxa
      rw [List.mem_singleton] at hxa
      exact hnotmem (hxa ▸ hx)
    have hperm := List.perm_insertionSort (· ≤ ·) (l ++ [a])
    exact ⟨List.sorted_insertionSort _ _, hperm.symm.nodup hnd⟩

theorem i2cScanningBlock_inv (st : DashStatus) (l : List Char)
    (h : statusInv st) : statusInv (i2cScanningBlock st l) := by
  unfold i2cScanningBlock setBus getBus
  dsimp only
  split
  · split
    · exact ⟨⟨List.sorted_nil, List.nodup_nil⟩, h.2⟩
    · exact ⟨h.1, ⟨List.sorted_nil, List.nodup_nil⟩⟩
  · exact h

theorem i2cFoundBlock_inv (st : DashStatus) (line : String) (l : List Char)
    (h : statusInv st) : statusInv (i2cFoundBlock st line l) := by
  unfold i2cFoundBlock
  split
  · split
    · next addr _ =>
      generalize (if containsL "audio bus".data l then BusId.audio
        else if containsL "sensor bus".data l then BusId.sensor
        else if st.audio_bus.bstatus = "Scanning" then BusId.audio
        else if st.sensor_bus.bstatus = "Scanning" then BusId.sensor
        else st.scanning_bus.getD BusId.sensor) = b
      cases b
      · exact ⟨i2cAddDevice_keeps h.1, h.2⟩
      · exact ⟨h.1, i2cAddDevice_keeps h.2⟩
    · exact h
  · exact h

theorem parseLogLine_inv (st : DashStatus) (line : String)
    (h : statusInv st) : statusInv (parseLogLine st line).1 := by
  unfold parseLogLine
  split
  · exact h
  · dsimp only
    cases hfw : firmwareBlock ((strLower line).data) with
    | some e => exact h
    | none =>
      have h1 := statusInv_of_buses
        (versionBlock_devices st ((strLower line).data)).1
        (versionBlock_devices st ((strLower line).data)).2 h
      have h2 := statusInv_of_buses
        (wifiBlock_devices _ ((strLower line).data)).1
        (wifiBlock_devices _ ((strLower line).data)).2 h1
      have h3 := statusInv_of_buses
        (ipBlock_devices _ ((strLower line).data)).1
        (ipBlock_devices _ ((strLower line).data)).2 h2
      rcases haws : awsBlock
          (ipBlock (wifiBlock (versionBlock st ((strLower line).data))
            ((strLower line).data)) ((strLower line).data))
          ((strLower line).data) with ⟨st5, _ | e⟩
      · have h4 : statusInv st5 := by
          have := statusInv_of_buses (awsBlock_devices _ ((strLower line).data)).1
            (awsBlock_devices _ ((strLower line).data)).2 h3
          rw [haws] at this
          exact this
        have h5 := statusInv_of_buses
          (wakeBlock_devices _ ((strLower line).data)).1
          (wakeBlock_devices _ ((strLower line).data)).2 h4
        have h6 := statusInv_of_buses
          (criticalBlock_devices _ line ((strLower line).data)).1
          (criticalBlock_devices _ line ((strLower line).data)).2 h5
        have h7 := statusInv_of_buses
          (errorsStatBlock_devices _ ((strLower line).data)).1
          (errorsStatBlock_devices _ ((strLower line).data)).2 h6
        have h8 := i2cScanningBlock_inv _ ((strLower line).data) h7
        have h9 := i2cFoundBlock_inv _ line ((strLower line).data) h8
        have h10 := statusInv_of_buses
          (i2cTotalBlock_devices _ ((strLower line).data)).1
          (i2cTotalBlock_devices _ ((strLower line).data)).2 h9
        have h11 := statusInv_of_buses
          (i2cEndBlock_devices _ ((strLower line).data)).1
          (i2cEndBlock_devices _ ((strLower line).data)).2 h10
        exact statusInv_of_buses
          (i2cFailBlock_devices _ ((strLower line).data)).1
          (i2cFailBlock_devices _ ((strLower line).data)).2 h11
      · have h4 : statusInv st5 := by
          have := statusInv_of_buses (awsBlock_devices _ ((strLower line).data)).1
            (awsBlock_devices _ ((strLower line).data)).2 h3
          rw [haws] at this
          exact this
        exact h4

/-- C10: after any sequence of log lines, both I2C bus-scan device lists
are ascending and duplicate-free; inserting a device address already
present leaves the list unchanged; a novel address yields a sorted list
containing it that is a permutation of the old list plus the address. -/
theorem C10_i2c_sorted :
    (∀ lines : List String,
      sortedNodup (classifyLines lines).sensor_bus.devices ∧
      sortedNodup (classifyLines lines).audio_bus.devices) ∧
    (∀ (l : List Nat) (a : Nat), a ∈ l → i2cAddDevice l a = l) ∧
    (∀ (l : List Nat) (a : Nat), sortedNodup l → a ∉ l →
      sortedNodup (i2cAddDevice l a) ∧ a ∈ i2cAddDevice l a ∧
      (i2cAddDevice l a).Perm (l ++ [a])) := by
  refine ⟨?_, ?_, ?_⟩
  · have main : ∀ (lines : List String) (st : DashStatus), statusInv st →
        statusInv (lines.foldl (fun s ln => (parseLogLine s ln).1) st) := by
      intro lines
      induction lines with
      | nil => intro st h; exact h
      | cons x xs ih =>
        intro st h
        exact ih _ (parseLogLine_inv st x h)
    intro lines
    have h0 : statusInv initStatus :=
      ⟨⟨List.sorted_nil, List.nodup_nil⟩, ⟨List.sorted_nil, List.nodup_nil⟩⟩
    exact main lines initStatus h0
  · intro l a h
    unfold i2cAddDevice
    rw [if_pos h]
  · intro l a hsn hnot
    have hkeep : sortedNodup (i2cAddDevice l a) := i2cAddDevice_keeps hsn
    have hperm : (i2cAddDevice l a).Perm (l ++ [a]) := by
      unfold i2cAddDevice
      rw [if_neg hnot]
      exact List.perm_insertionSort _ _
    refine ⟨hkeep, ?_, hperm⟩
    exact hperm.mem_iff.mpr (List.mem_append_right l (by simp))

/-- Sanity check on concrete inputs: a duplicate is a no-op, a novel address
is inserted in ascending position, and a scan sequence gives a sorted list. -/
theorem i2cAddDevice_examples :
    i2cAddDevice [0x44] 0x44 = [0x44] ∧
    i2cAddDevice [0x44] 0x23 = [0x23, 0x44] ∧
    (classifyLines ["Scanning Sensor Bus...",
      "Found device at address 0x44",
      "Found device at address 0x23",
      "Found device at address 0x44"]).sensor_bus.devices = [0x23, 0x44] := by
  refine ⟨by decide, by decide, by decide⟩
